import Mathlib

/-!
Shallow embedding of `cliproc.py` (class `CliCommand`), a thin wrapper around
the sarge pipeline library, together with theorems about its observable
behaviour.

Modelling conventions:

* The Python object `CliCommand` becomes the structure `CliCommand`; its
  mutable fields (`cmd`, `posix`, `kwargs`, `stdout_encoding`,
  `stderr_encoding`, `_silence`, `_capture`, `process`, `stdout`, `stderr`)
  become structure fields.  Python `None` becomes `Option.none`.
* The external collaborators are modelled by records: a sarge `Capture` object
  becomes `CaptureRec` (its constructor argument `encoding` plus the text the
  draining threads eventually accumulate), and a sarge `Pipeline` object
  becomes `PipelineRec` (the constructor arguments `source`, `shell`, `posix`,
  the capture targets, the pass-through `kwargs`, plus the exit code filled in
  by execution and a `closed` flag set by `Pipeline.close`).
* A `World` records everything outside the handle: all pipelines ever created
  (identified by a fresh natural-number id), an ordered event log of external
  resource operations (capture creation and close, pipeline creation, run and
  close), and the lines printed to standard output.
* Actual child-process execution is external to this repository; its outcome
  (exit code, decoded stdout text, decoded stderr text, as observable after
  `Pipeline.run` returns) is passed to `run` as an `ExecOutcome` oracle.
* Keyword-argument dictionaries become association lists `List (String x
  String)` with the value type abstracted to `String`; keys are unique in a
  Python dict, and only the key "encoding" is ever inspected by the wrapper.
* The Python method `run` raises `AttributeError` when `_printResult` touches
  `self.stdout.text` while `self.stdout` is `None` (capture off, silence off).
  Since the object is mutated in place before the raise, the embedding keeps
  the mutated state and reports the raise in a `raised` flag; the return value
  is `none` on that path because the Python call never returns.
-/

/-- Exit code and decoded output texts of one external execution, as
observable once `Pipeline.run` has completed. -/
structure ExecOutcome where
  returncode : Int
  stdoutText : String
  stderrText : String
deriving DecidableEq, Repr

/-- A sarge `Capture` object: constructed with an encoding, accumulates
decoded text. -/
structure CaptureRec where
  encoding : String
  text : String
deriving DecidableEq, Repr

/-- A sarge `Pipeline` object as constructed at line 87 of `cliproc.py`:
`Pipeline(source=command, shell=shell, posix=self.posix, stdout=self.stdout,
stderr=self.stderr, **self.kwargs)`, plus the exit code filled in by
execution, a world-unique id, and a `closed` flag set by `Pipeline.close`. -/
structure PipelineRec where
  id : Nat
  source : String
  shell : Option Bool
  posix : Option Bool
  stdout : Option CaptureRec
  stderr : Option CaptureRec
  kwargs : List (String × String)
  returncode : Int
  closed : Bool
deriving DecidableEq, Repr

/-- External resource operations performed by the wrapper, in order. -/
inductive Event where
  | captureCreate (stream : String) (encoding : String)
  | captureClose (stream : String) (stopThreads : Bool)
  | pipelineCreate (pid : Nat)
  | pipelineRun (pid : Nat) (input : Option String) (asyncFlag : Bool)
  | pipelineClose (pid : Nat)
deriving DecidableEq, Repr

/-- Everything outside the `CliCommand` object: all pipelines ever created,
a fresh-id counter, the printed standard-output lines, and the ordered log of
external resource operations. -/
structure World where
  pipelines : List PipelineRec
  nextId : Nat
  printed : List String
  events : List Event
deriving DecidableEq, Repr

/-- The empty world before any run. -/
def w0 : World := { pipelines := [], nextId := 0, printed := [], events := [] }

/-- The `CliCommand` object state. Python `_silence` and `_capture` are the
fields `silence` and `capture`; `process` holds the id of the current
pipeline in the world. -/
structure CliCommand where
  cmd : String
  posix : Option Bool
  kwargs : List (String × String)
  stdout_encoding : String
  stderr_encoding : String
  silence : Bool
  capture : Bool
  process : Option Nat
  stdout : Option CaptureRec
  stderr : Option CaptureRec
deriving DecidableEq, Repr

/-- Python `"encoding" in kwargs` plus the lookup: first value bound to the
key, if any (keys of a Python dict are unique). -/
def lookupKw : List (String × String) → String → Option String
  | [], _ => none
  | (k, v) :: rest, key => if k = key then some v else lookupKw rest key

/-- Python `kwargs.pop(key)`: the dict without the binding for `key`. -/
def popKw : List (String × String) → String → List (String × String)
  | [], _ => []
  | (k, v) :: rest, key => if k = key then rest else (k, v) :: popKw rest key

/-- Lines 45-54 of `cliproc.py`: resolve the stdout and stderr encodings and
the stored kwargs.  If the caller passed `encoding`, both streams use it and
the key is popped (the pop mutates the dict aliased by `self.kwargs`);
otherwise, if both `sys.stdout.encoding` and `sys.stderr.encoding` are
defined, each stream takes its own interpreter encoding; otherwise both fall
back to "utf-8". -/
def resolveEncodings (kwargs : List (String × String))
    (sysStdoutEncoding sysStderrEncoding : Option String) :
    String × String × List (String × String) :=
  match lookupKw kwargs "encoding" with
  | some encoding => (encoding, encoding, popKw kwargs "encoding")
  | none =>
    match sysStdoutEncoding, sysStderrEncoding with
    | some so, some se => (so, se, kwargs)
    | _, _ => ("utf-8", "utf-8", kwargs)

/-- `CliCommand.__init__` (lines 34-57): store configuration, null the
process and both captures, resolve encodings.  No process is started. -/
def CliCommand.init (cmd : String) (posix : Option Bool) (silence : Bool)
    (capture : Bool) (kwargs : List (String × String))
    (sysStdoutEncoding sysStderrEncoding : Option String) : CliCommand :=
  let r := resolveEncodings kwargs sysStdoutEncoding sysStderrEncoding
  { cmd := cmd
    posix := posix
    kwargs := r.2.2
    stdout_encoding := r.1
    stderr_encoding := r.2.1
    silence := silence
    capture := capture
    process := none
    stdout := none
    stderr := none }

/-- `CliCommand.terminate` (lines 146-163): close the stdout capture if
present (with `stop_threads=True`) and null it, likewise the stderr capture,
then close the pipeline if present and null the reference. -/
def CliCommand.terminate (s : CliCommand) (w : World) : CliCommand × World :=
  let (s, w) :=
    match s.stdout with
    | some _ =>
      ({ s with stdout := none },
       { w with events := w.events ++ [Event.captureClose "stdout" true] })
    | none => (s, w)
  let (s, w) :=
    match s.stderr with
    | some _ =>
      ({ s with stderr := none },
       { w with events := w.events ++ [Event.captureClose "stderr" true] })
    | none => (s, w)
  match s.process with
  | some pid =>
    ({ s with process := none },
     { w with
        pipelines := w.pipelines.map
          (fun p => if p.id = pid then { p with closed := true } else p)
        events := w.events ++ [Event.pipelineClose pid] })
  | none => (s, w)

/-- Lines 75-78 of `run`: `command = self.cmd; if param: command = self.cmd +
" " + param`.  Python truthiness: `None` and the empty string both skip the
concatenation. -/
def buildCommand (cmd : String) (param : Option String) : String :=
  match param with
  | some p => if p ≠ "" then cmd ++ " " ++ p else cmd
  | none => cmd

/-- Helper for `splitLines`: walk the characters, cutting at each newline;
`acc` holds the characters of the current piece in reverse. -/
def splitLinesAux : List Char → List Char → List String
  | [], acc => [String.mk acc.reverse]
  | c :: rest, acc =>
    if c = '\n' then String.mk acc.reverse :: splitLinesAux rest []
    else splitLinesAux rest (c :: acc)

/-- Python `text.split("\n")`: the pieces of `text` between newlines, kept
even when empty; the result is never the empty list (`"".split("\n")` is
`[""]`). -/
def splitLines (text : String) : List String := splitLinesAux text.data []

/-- One output block of `_printResult`: the label line carries the first
line of the text (split on newline), each further line is prefixed with
`[]           : `.  The empty-list branch mirrors the dead `else: print("")`
(Python `split` never returns an empty list). -/
def outputBlockLines (label : String) (text : String) : List String :=
  match splitLines text with
  | [] => [label ++ " "]
  | first :: rest =>
    (label ++ " " ++ first) :: rest.map (fun i => "[]           : " ++ i)

/-- `CliCommand._printResult` (lines 97-127), with `self.process`,
`self.stdout` and `self.stderr` passed explicitly.  Returns the printed
lines and whether the method raised `AttributeError` (it dereferences
`self.stdout.text` and `self.stderr.text` without a null check; an
unterminated label fragment printed before the raise is dropped). -/
def printResultLines (proc : PipelineRec) (stdout stderr : Option CaptureRec) :
    List String × Bool :=
  let pre := ["[] ** START **",
              "[] Command   : " ++ proc.source,
              "[] Exit Code : " ++ toString proc.returncode]
  match stdout with
  | none => (pre, true)
  | some so =>
    let outLines := outputBlockLines "[] STDOUT    :" so.text
    match stderr with
    | none => (pre ++ outLines, true)
    | some se =>
      (pre ++ outLines ++ outputBlockLines "[] STDERR    :" se.text
         ++ ["[] ** E N D **", ""], false)

/-- Result of one call to `CliCommand.run`: the mutated handle, the world,
the pipeline object constructed by this call, whether `_printResult` raised,
and the returned value of `self.get_process()` (`none` when the call raised,
since it then never returns). -/
structure RunResult where
  state : CliCommand
  world : World
  created : PipelineRec
  raised : Bool
  ret : Option Nat
deriving DecidableEq, Repr

/-- `CliCommand.run` (lines 59-95).  `plat` is `platform.system()`; `ex` is
the externally determined outcome of the execution.  Steps, in source order:
unconditional `terminate`; fresh captures when `self._capture is True`;
command-line concatenation; the Windows-family `" & exit"` suffix and forced
shell mode; `Pipeline` construction; `Pipeline.run`; the report when not
silent; return of `self.get_process()`. -/
def CliCommand.run (s : CliCommand) (w : World) (plat : String)
    (param msg input : Option String) (asyncFlag : Bool) (ex : ExecOutcome) :
    RunResult :=
  let (s, w) := CliCommand.terminate s w
  let (s, w) :=
    if s.capture = true then
      ({ s with
          stdout := some { encoding := s.stdout_encoding, text := ex.stdoutText }
          stderr := some { encoding := s.stderr_encoding, text := ex.stderrText } },
       { w with events := w.events
          ++ [Event.captureCreate "stdout" s.stdout_encoding,
              Event.captureCreate "stderr" s.stderr_encoding] })
    else (s, w)
  let command := buildCommand s.cmd param
  let cs : String × Option Bool :=
    if plat = "Windows" then (command ++ " & exit", some true) else (command, none)
  let pid := w.nextId
  let pipe : PipelineRec :=
    { id := pid
      source := cs.1
      shell := cs.2
      posix := s.posix
      stdout := s.stdout
      stderr := s.stderr
      kwargs := s.kwargs
      returncode := ex.returncode
      closed := false }
  let w := { w with
      pipelines := w.pipelines ++ [pipe]
      nextId := w.nextId + 1
      events := w.events
        ++ [Event.pipelineCreate pid, Event.pipelineRun pid input asyncFlag] }
  let s := { s with process := some pid }
  if s.silence then
    { state := s, world := w, created := pipe, raised := false, ret := s.process }
  else
    let pr := printResultLines pipe s.stdout s.stderr
    { state := s
      world := { w with printed := w.printed ++ pr.1 }
      created := pipe
      raised := pr.2
      ret := if pr.2 then none else s.process }

/-- `CliCommand.get_process` (lines 129-136). -/
def CliCommand.get_process (s : CliCommand) : Option Nat := s.process

/-- `CliCommand.get_output` (lines 138-144): returns the stdout capture. -/
def CliCommand.get_output (s : CliCommand) : Option CaptureRec := s.stdout

/-- Selects the pipeline-lifecycle events from the event log. -/
def isPipelineEvent : Event → Bool
  | Event.pipelineCreate _ => true
  | Event.pipelineRun _ _ _ => true
  | Event.pipelineClose _ => true
  | _ => false


/-- The scenario of two successive `run` calls on a freshly constructed
handle in a fresh world: the pair of both run results. -/
def runTwice (cmd : String) (posix : Option Bool) (sil cap : Bool)
    (kw : List (String × String)) (so se : Option String)
    (plat1 plat2 : String) (pa1 pa2 m1 m2 i1 i2 : Option String)
    (a1 a2 : Bool) (e1 e2 : ExecOutcome) : RunResult × RunResult :=
  let r1 := CliCommand.run (CliCommand.init cmd posix sil cap kw so se) w0
    plat1 pa1 m1 i1 a1 e1
  (r1, CliCommand.run r1.state r1.world plat2 pa2 m2 i2 a2 e2)

/-- The state part of `terminate`: the three owned references are nulled,
everything else is untouched. -/
theorem terminate_fst_eq (s : CliCommand) (w : World) :
    (CliCommand.terminate s w).1
      = { s with process := none, stdout := none, stderr := none } := by
  obtain ⟨c, px, kw, soe, see, sil, cap, proc, so, se⟩ := s
  cases so <;> cases se <;> cases proc <;> simp [CliCommand.terminate]

/-- On a handle whose three owned references are already null, `terminate`
is the identity: no branch fires, no event is emitted. -/
theorem terminate_of_null (s : CliCommand) (w : World) (h1 : s.stdout = none)
    (h2 : s.stderr = none) (h3 : s.process = none) :
    CliCommand.terminate s w = (s, w) := by
  obtain ⟨c, px, kw, soe, see, sil, cap, proc, so, se⟩ := s
  simp only at h1 h2 h3
  subst h1; subst h2; subst h3
  simp [CliCommand.terminate]

/-- The stdout capture held by the handle after `run`: freshly allocated
exactly when `_capture is True`, otherwise left null by the initial
`terminate`. -/
theorem run_state_stdout (s : CliCommand) (w : World) (plat : String)
    (pa m i : Option String) (a : Bool) (e : ExecOutcome) :
    (CliCommand.run s w plat pa m i a e).state.stdout =
      (if s.capture = true then
        some { encoding := s.stdout_encoding, text := e.stdoutText }
       else none) := by
  obtain ⟨c, px, kw, soe, see, sil, cap, proc, so, se⟩ := s
  cases so <;> cases se <;> cases proc <;> cases cap <;> cases sil <;>
    simp [CliCommand.run, CliCommand.terminate]

/-- The command line and shell mode of the pipeline constructed by `run`:
the concatenated command, with the `" & exit"` suffix and forced shell mode
exactly on the Windows platform family. -/
theorem run_created_source (s : CliCommand) (w : World) (plat : String)
    (param m i : Option String) (a : Bool) (e : ExecOutcome) :
    (CliCommand.run s w plat param m i a e).created.source
        = (if plat = "Windows" then buildCommand s.cmd param ++ " & exit"
           else buildCommand s.cmd param)
    ∧ (CliCommand.run s w plat param m i a e).created.shell
        = (if plat = "Windows" then some true else none) := by
  obtain ⟨c, px, kw, soe, see, sil, cap, proc, so, se⟩ := s
  by_cases hplat : plat = "Windows" <;>
    cases so <;> cases se <;> cases proc <;> cases cap <;> cases sil <;>
      simp [CliCommand.run, CliCommand.terminate, hplat]

/-- Claim C1 counterexample: constructed without an explicit `encoding`
option, with both interpreter stream encodings defined but different
(stdout "utf-8", stderr "cp949"), the resolved stdout and stderr encodings
differ — the code copies each stream encoding separately and never forces
them equal. -/
theorem C1_counterexample :
    (CliCommand.init "foo" none true true [] (some "utf-8") (some "cp949")).stdout_encoding
      ≠ (CliCommand.init "foo" none true true [] (some "utf-8") (some "cp949")).stderr_encoding := by
  decide

/-- Claim C1 (amended): without an explicit `encoding` option and with both
interpreter output-stream encodings defined, the resolved stdout encoding
equals the stdout-stream encoding and the resolved stderr encoding equals
the stderr-stream encoding; the two resolved encodings agree exactly when
the platform stream encodings agree. -/
theorem C1_amended_encoding_resolution (cmd : String) (posix : Option Bool)
    (sil cap : Bool) (kw : List (String × String)) (eo ee : String)
    (henc : lookupKw kw "encoding" = none) :
    (CliCommand.init cmd posix sil cap kw (some eo) (some ee)).stdout_encoding = eo
    ∧ (CliCommand.init cmd posix sil cap kw (some eo) (some ee)).stderr_encoding = ee
    ∧ (eo = ee →
        (CliCommand.init cmd posix sil cap kw (some eo) (some ee)).stdout_encoding
          = (CliCommand.init cmd posix sil cap kw (some eo) (some ee)).stderr_encoding) := by
  simp [CliCommand.init, resolveEncodings, henc]

/-- Claim C1 witness: the amended statement at a concrete construction with
distinct defined stream encodings. -/
theorem C1_amended_encoding_resolution_witness :
    (CliCommand.init "foo" none true true [] (some "utf-8") (some "cp949")).stdout_encoding = "utf-8"
    ∧ (CliCommand.init "foo" none true true [] (some "utf-8") (some "cp949")).stderr_encoding = "cp949"
    ∧ ("utf-8" = "cp949" →
        (CliCommand.init "foo" none true true [] (some "utf-8") (some "cp949")).stdout_encoding
          = (CliCommand.init "foo" none true true [] (some "utf-8") (some "cp949")).stderr_encoding) :=
  C1_amended_encoding_resolution "foo" none true true [] "utf-8" "cp949" rfl

/-- Claim C2: for every run of a handle whose program path is "foo" with
parameters "-l", on the Windows family the pipeline receives the command
line "foo -l & exit" with shell mode forced true; on every non-Windows
platform it receives "foo -l" with shell mode left unset. -/
theorem C2_platform_command (s : CliCommand) (w : World) (plat : String)
    (m i : Option String) (a : Bool) (ex : ExecOutcome)
    (hcmd : s.cmd = "foo") (hplat : plat ≠ "Windows") :
    (CliCommand.run s w "Windows" (some "-l") m i a ex).created.source = "foo -l & exit"
    ∧ (CliCommand.run s w "Windows" (some "-l") m i a ex).created.shell = some true
    ∧ (CliCommand.run s w plat (some "-l") m i a ex).created.source = "foo -l"
    ∧ (CliCommand.run s w plat (some "-l") m i a ex).created.shell = none := by
  have h1 := run_created_source s w "Windows" (some "-l") m i a ex
  have h2 := run_created_source s w plat (some "-l") m i a ex
  rw [hcmd] at h1 h2
  simp [hplat, buildCommand] at h1 h2
  exact ⟨h1.1, h1.2, h2.1, h2.2⟩

/-- Claim C2 witness: the statement at a concrete handle, with "Linux" as
the non-Windows platform. -/
theorem C2_platform_command_witness :
    ((CliCommand.init "foo" none true true [] none none).run w0 "Windows" (some "-l")
        none none false ⟨0, "", ""⟩).created.source = "foo -l & exit"
    ∧ ((CliCommand.init "foo" none true true [] none none).run w0 "Windows" (some "-l")
        none none false ⟨0, "", ""⟩).created.shell = some true
    ∧ ((CliCommand.init "foo" none true true [] none none).run w0 "Linux" (some "-l")
        none none false ⟨0, "", ""⟩).created.source = "foo -l"
    ∧ ((CliCommand.init "foo" none true true [] none none).run w0 "Linux" (some "-l")
        none none false ⟨0, "", ""⟩).created.shell = none :=
  C2_platform_command (CliCommand.init "foo" none true true [] none none) w0 "Linux"
    none none false ⟨0, "", ""⟩ rfl (by decide)

/-- Claim C3: run calls terminate unconditionally before creating the new
pipeline, so after two successive runs on a fresh handle exactly one
pipeline is live — the second one — and the event log shows the first
pipeline closed strictly before the second is created; the handle owns the
second pipeline. -/
theorem C3_single_live_process (cmd : String) (posix : Option Bool)
    (sil cap : Bool) (kw : List (String × String)) (so se : Option String)
    (plat1 plat2 : String) (pa1 pa2 m1 m2 i1 i2 : Option String)
    (a1 a2 : Bool) (e1 e2 : ExecOutcome) :
    ((runTwice cmd posix sil cap kw so se plat1 plat2 pa1 pa2 m1 m2 i1 i2 a1 a2 e1 e2).2.world.pipelines.filter
        (fun p => p.closed = false)).map (fun p => p.id) = [1]
    ∧ (runTwice cmd posix sil cap kw so se plat1 plat2 pa1 pa2 m1 m2 i1 i2 a1 a2 e1 e2).2.world.events.filter
        isPipelineEvent
        = [Event.pipelineCreate 0, Event.pipelineRun 0 i1 a1, Event.pipelineClose 0,
           Event.pipelineCreate 1, Event.pipelineRun 1 i2 a2]
    ∧ (runTwice cmd posix sil cap kw so se plat1 plat2 pa1 pa2 m1 m2 i1 i2 a1 a2 e1 e2).1.created.id = 0
    ∧ (runTwice cmd posix sil cap kw so se plat1 plat2 pa1 pa2 m1 m2 i1 i2 a1 a2 e1 e2).2.created.id = 1
    ∧ (runTwice cmd posix sil cap kw so se plat1 plat2 pa1 pa2 m1 m2 i1 i2 a1 a2 e1 e2).2.state.process = some 1 := by
  cases cap <;> cases sil <;>
    simp [runTwice, CliCommand.run, CliCommand.terminate, CliCommand.init, w0,
      isPipelineEvent]

/-- Claim C4 counterexample: with the empty string supplied as parameters,
the pipeline receives the bare program path "foo", not the program path,
a separating space and the parameters string ("foo "): the code tests
Python truthiness, under which the empty string counts as absent. -/
theorem C4_counterexample :
    ((CliCommand.init "foo" none true true [] none none).run w0 "Linux"
        (some "") none none false ⟨0, "", ""⟩).created.source = "foo"
    ∧ ("foo" : String) ≠ "foo" ++ " " ++ "" := by
  decide

/-- Claim C4 (amended): for every supplied non-empty parameters string the
command line handed to the pipeline is the program path, one separating
space and the parameters string; when no parameters value is supplied, or
the supplied string is empty, the command line is the program path alone
(stated on a non-Windows platform, where no suffix is appended). -/
theorem C4_amended_command_line (s : CliCommand) (w : World) (plat : String)
    (m i : Option String) (a : Bool) (e : ExecOutcome) (p : String)
    (hp : p ≠ "") (hplat : plat ≠ "Windows") :
    (CliCommand.run s w plat (some p) m i a e).created.source = s.cmd ++ " " ++ p
    ∧ (CliCommand.run s w plat none m i a e).created.source = s.cmd
    ∧ (CliCommand.run s w plat (some "") m i a e).created.source = s.cmd := by
  have h1 := run_created_source s w plat (some p) m i a e
  have h2 := run_created_source s w plat none m i a e
  have h3 := run_created_source s w plat (some "") m i a e
  simp [hplat, buildCommand, hp] at h1 h2 h3
  exact ⟨h1.1, h2.1, h3.1⟩

/-- Claim C4 witness: the amended statement at a concrete handle, parameters
"-l", platform "Linux". -/
theorem C4_amended_command_line_witness :
    ((CliCommand.init "foo" none true true [] none none).run w0 "Linux"
        (some "-l") none none false ⟨0, "", ""⟩).created.source
      = (CliCommand.init "foo" none true true [] none none).cmd ++ " " ++ "-l"
    ∧ ((CliCommand.init "foo" none true true [] none none).run w0 "Linux"
        none none none false ⟨0, "", ""⟩).created.source
      = (CliCommand.init "foo" none true true [] none none).cmd
    ∧ ((CliCommand.init "foo" none true true [] none none).run w0 "Linux"
        (some "") none none false ⟨0, "", ""⟩).created.source
      = (CliCommand.init "foo" none true true [] none none).cmd :=
  C4_amended_command_line (CliCommand.init "foo" none true true [] none none) w0 "Linux"
    none none false ⟨0, "", ""⟩ "-l" (by decide) (by decide)

/-- Claim C5: every run with capture on and silence off whose captured
stdout text is "a\nb\nc" and whose exit code is 0 — whatever the handle,
prior world, platform, parameters and stderr text — appends to standard
output exactly the report consisting of the START marker, the Command line,
an Exit Code line reading 0, the STDOUT label line ending in a, exactly the
two continuation lines b and c, the STDERR block, the end marker and a
blank line; no exception is raised. -/
theorem C5_report_universal (s : CliCommand) (w : World) (plat : String)
    (pa m i : Option String) (a : Bool) (t : String)
    (hc : s.capture = true) (hs : s.silence = false) :
    (CliCommand.run s w plat pa m i a ⟨0, "a\nb\nc", t⟩).world.printed
      = w.printed
        ++ ["[] ** START **",
            "[] Command   : "
              ++ (CliCommand.run s w plat pa m i a ⟨0, "a\nb\nc", t⟩).created.source,
            "[] Exit Code : 0",
            "[] STDOUT    : a", "[]           : b", "[]           : c"]
        ++ outputBlockLines "[] STDERR    :" t
        ++ ["[] ** E N D **", ""]
    ∧ (CliCommand.run s w plat pa m i a ⟨0, "a\nb\nc", t⟩).raised = false := by
  have hout : outputBlockLines "[] STDOUT    :" "a\nb\nc"
      = ["[] STDOUT    : a", "[]           : b", "[]           : c"] := by decide
  have hexit : "[] Exit Code : " ++ toString (0 : Int) = "[] Exit Code : 0" := by decide
  obtain ⟨c, px, kw, soe, see, sil, cap, proc, so, se⟩ := s
  simp only at hc hs
  subst hc; subst hs
  cases so <;> cases se <;> cases proc <;>
    simp [CliCommand.run, CliCommand.terminate, printResultLines, hout, hexit]

/-- Claim C5 witness: the universal report statement at a concrete
capture-on, silence-off run with stdout "a\nb\nc", empty stderr and exit
code 0. -/
theorem C5_report_universal_witness :
    ((CliCommand.init "foo" none false true [] none none).run w0 "Linux" none none none false
        ⟨0, "a\nb\nc", ""⟩).world.printed
      = w0.printed
        ++ ["[] ** START **",
            "[] Command   : "
              ++ ((CliCommand.init "foo" none false true [] none none).run w0 "Linux"
                  none none none false ⟨0, "a\nb\nc", ""⟩).created.source,
            "[] Exit Code : 0",
            "[] STDOUT    : a", "[]           : b", "[]           : c"]
        ++ outputBlockLines "[] STDERR    :" ""
        ++ ["[] ** E N D **", ""]
    ∧ ((CliCommand.init "foo" none false true [] none none).run w0 "Linux" none none none false
        ⟨0, "a\nb\nc", ""⟩).raised = false :=
  C5_report_universal (CliCommand.init "foo" none false true [] none none) w0 "Linux"
    none none none false "" rfl rfl

/-- Claim C6: get_output returns null on a handle that has never run, and
returns null after any run performed with capture disabled; being a total
observation of the stdout field, it raises nothing. -/
theorem C6_get_output_null :
    (∀ (cmd : String) (posix : Option Bool) (sil cap : Bool)
        (kw : List (String × String)) (so se : Option String),
        CliCommand.get_output (CliCommand.init cmd posix sil cap kw so se) = none)
    ∧ (∀ (s : CliCommand) (w : World) (plat : String) (pa m i : Option String)
        (a : Bool) (e : ExecOutcome), s.capture = false →
          CliCommand.get_output ((CliCommand.run s w plat pa m i a e).state) = none) := by
  constructor
  · intro cmd posix sil cap kw so se
    rfl
  · intro s w plat pa m i a e hc
    have h := run_state_stdout s w plat pa m i a e
    simp [CliCommand.get_output, h, hc]

/-- Claim C6 witness: a concrete capture-disabled run after which
get_output returns null. -/
theorem C6_get_output_null_witness :
    CliCommand.get_output (((CliCommand.init "foo" none true false [] none none).run w0 "Linux"
        none none none false ⟨0, "", ""⟩).state) = none :=
  C6_get_output_null.2 (CliCommand.init "foo" none true false [] none none) w0 "Linux"
    none none none false ⟨0, "", ""⟩ rfl

/-- Claim C7: terminate on a freshly constructed handle is a complete
no-op — no close is performed (the world, including its event log, is
untouched, so nothing that could raise is executed) and the process and
both captures stay null; and terminate is idempotent, so a redundant call
on any state performs no close and changes nothing. -/
theorem C7_terminate_idempotent :
    (∀ (cmd : String) (posix : Option Bool) (sil cap : Bool)
        (kw : List (String × String)) (so se : Option String) (w : World),
        CliCommand.terminate (CliCommand.init cmd posix sil cap kw so se) w
          = (CliCommand.init cmd posix sil cap kw so se, w))
    ∧ (∀ (s : CliCommand) (w : World),
        CliCommand.terminate (CliCommand.terminate s w).1 (CliCommand.terminate s w).2
          = CliCommand.terminate s w) := by
  constructor
  · intro cmd posix sil cap kw so se w
    rfl
  · intro s w
    have h := terminate_of_null (CliCommand.terminate s w).1 (CliCommand.terminate s w).2
      (by rw [terminate_fst_eq]) (by rw [terminate_fst_eq]) (by rw [terminate_fst_eq])
    rw [h]

/-- Claim C8: terminate only nulls the process handle and the two captures;
the program path, posix flag, silence flag, capture flag, both resolved
encodings and the stored pass-through launch options are unchanged, in every
state. -/
theorem C8_terminate_frame (s : CliCommand) (w : World) :
    ((CliCommand.terminate s w).1).cmd = s.cmd
    ∧ ((CliCommand.terminate s w).1).posix = s.posix
    ∧ ((CliCommand.terminate s w).1).silence = s.silence
    ∧ ((CliCommand.terminate s w).1).capture = s.capture
    ∧ ((CliCommand.terminate s w).1).stdout_encoding = s.stdout_encoding
    ∧ ((CliCommand.terminate s w).1).stderr_encoding = s.stderr_encoding
    ∧ ((CliCommand.terminate s w).1).kwargs = s.kwargs
    ∧ ((CliCommand.terminate s w).1).process = none
    ∧ ((CliCommand.terminate s w).1).stdout = none
    ∧ ((CliCommand.terminate s w).1).stderr = none := by
  rw [terminate_fst_eq]
  exact ⟨rfl, rfl, rfl, rfl, rfl, rfl, rfl, rfl, rfl, rfl⟩

/-- Claim C9: the message argument of run is dead — two calls differing
only in the message value produce the same handle state, the same world
(pipelines, command lines, printed report, events) and the same return
value. -/
theorem C9_message_unused (s : CliCommand) (w : World) (plat : String)
    (pa m1 m2 i : Option String) (a : Bool) (e : ExecOutcome) :
    CliCommand.run s w plat pa m1 i a e = CliCommand.run s w plat pa m2 i a e :=
  rfl

/-- Claim C10: after terminate returns, get_output returns null in every
state; in particular after a run with capture enabled, whose state holds a
non-null stdout capture, the following terminate nulls exactly the
reference that get_output exposes. -/
theorem C10_get_output_after_terminate :
    (∀ (s : CliCommand) (w : World),
        CliCommand.get_output (CliCommand.terminate s w).1 = none)
    ∧ (∀ (s : CliCommand) (w : World) (plat : String) (pa m i : Option String)
        (a : Bool) (e : ExecOutcome), s.capture = true →
        CliCommand.get_output ((CliCommand.run s w plat pa m i a e).state) ≠ none
        ∧ CliCommand.get_output
            ((CliCommand.terminate ((CliCommand.run s w plat pa m i a e).state)
              ((CliCommand.run s w plat pa m i a e).world)).1) = none) := by
  constructor
  · intro s w
    show ((CliCommand.terminate s w).1).stdout = none
    rw [terminate_fst_eq]
  · intro s w plat pa m i a e hc
    refine ⟨?_, ?_⟩
    · have h := run_state_stdout s w plat pa m i a e
      simp [CliCommand.get_output, h, hc]
    · show ((CliCommand.terminate _ _).1).stdout = none
      rw [terminate_fst_eq]

/-- Claim C10 witness: a concrete capture-enabled run after which
get_output is non-null, and null once terminate has returned. -/
theorem C10_get_output_after_terminate_witness :
    CliCommand.get_output (((CliCommand.init "foo" none true true [] none none).run w0 "Linux"
        none none none false ⟨0, "out", ""⟩).state) ≠ none
    ∧ CliCommand.get_output
        ((CliCommand.terminate (((CliCommand.init "foo" none true true [] none none).run w0 "Linux"
            none none none false ⟨0, "out", ""⟩).state)
          (((CliCommand.init "foo" none true true [] none none).run w0 "Linux"
            none none none false ⟨0, "out", ""⟩).world)).1) = none :=
  C10_get_output_after_terminate.2 (CliCommand.init "foo" none true true [] none none) w0
    "Linux" none none none false ⟨0, "out", ""⟩ rfl
